import Mathlib

/-!
Verification of the Task Board frontend.

This file shallowly embeds the two source files of the repository,
`src/frontend/src/App.js` (the board controller/view) and
`src/frontend/src/lib/api.js` (the API client), and proves properties of the
embedded operations.

Modelling conventions:
* JavaScript numbers used by the progress computation are modelled as `ℚ`.
* Component state (the React `useState` hooks of `App.js`) is gathered into a
  single `AppState` record; every event handler becomes a pure function on it.
* An asynchronous handler is split into its synchronous start phase (which also
  reports the list of API calls it issues) and its resolution phase, one
  function per `try`/`catch` branch; `xxxRun` composes them for a given
  network outcome.
* The `window.setTimeout`/`window.clearTimeout` pair behind `setSavedSoon` is
  modelled by a timer id: `pendingTimer` holds the id of the currently
  scheduled revert (if any), `nextId` is the next fresh id, and `timerFire id`
  is the arrival of the callback of timer `id` — it does nothing unless `id`
  is still the scheduled one (a cleared or superseded timer never runs).
-/

namespace TaskBoard

/-- A task as held in the component state: `{ id, title, completed }`
(spec data model; rows rendered in `App.js`). -/
structure Task where
  id : Nat
  title : String
  completed : Bool
deriving DecidableEq, Repr

/-- The save-status indicator states of `App.js` line 32:
`"idle" | "saving" | "saved" | "error"`. -/
inductive SaveState where
  | idle
  | saving
  | saved
  | error
deriving DecidableEq, Repr

/-- The API calls the view can issue (the four operations of `api.js`). -/
inductive ApiCall where
  | listTasks
  | createTask (title : String)
  | patchTaskCompletion (id : Nat) (completed : Bool)
  | deleteTask (id : Nat)
deriving DecidableEq, Repr

/-- The resolved value of `createTask` / `patchTaskCompletion` as used by the
handlers of `App.js`: an object whose `task` field holds the Task
(`res.task` at lines 88 and 107). -/
structure TaskResponse where
  task : Task
deriving DecidableEq, Repr

/-- The component state of `App.js`: the `useState` hooks `tasks`, `loading`,
`error`, `title`, `focusMode`, `saveState`, plus the timer bookkeeping of
`window.__taskBoardSaveTimeout` (see the module docstring). -/
structure AppState where
  tasks : List Task
  loading : Bool
  errorMsg : String
  title : String
  focusMode : Bool
  saveState : SaveState
  pendingTimer : Option Nat
  nextId : Nat
deriving DecidableEq, Repr

/-- The initial component state (`useState([])`, `useState(true)`,
`useState("")`, `useState("")`, `useState(false)`, `useState("idle")`). -/
def initState : AppState :=
  { tasks := [], loading := true, errorMsg := "", title := "",
    focusMode := false, saveState := SaveState.idle,
    pendingTimer := none, nextId := 0 }

/-- `clamp` of `App.js` lines 15-17: `Math.min(max, Math.max(min, n))`. -/
def clamp (n mn mx : ℚ) : ℚ := min mx (max mn n)

/-- `formatPercent` of `App.js` lines 19-21: the template string
with `Math.round(n)` followed by a percent sign. -/
def formatPercent (n : ℚ) : String := toString (round n) ++ "%"

/-- `completedCount` of `App.js` lines 34-37:
`tasks.filter((t) => t.completed).length`. -/
def completedCount (tasks : List Task) : Nat :=
  (tasks.filter (fun t => t.completed)).length

/-- `totalCount` of `App.js` line 39: `tasks.length`. -/
def totalCount (tasks : List Task) : Nat := tasks.length

/-- `percent` of `App.js` lines 40-43: `0` when there are no tasks, else
`clamp((completedCount / totalCount) * 100, 0, 100)`. -/
def percent (tasks : List Task) : ℚ :=
  if totalCount tasks = 0 then 0
  else clamp ((completedCount tasks : ℚ) / (totalCount tasks : ℚ) * 100) 0 100

/-- `visibleTasks` of `App.js` lines 45-48: the full list when focus mode is
off, otherwise the tasks with `completed` false. -/
def visibleTasks (focusMode : Bool) (tasks : List Task) : List Task :=
  if focusMode then tasks.filter (fun t => !t.completed) else tasks

/-- The focus-mode switch (`setFocusMode` wired to the `Switch` at
`App.js` lines 170-174): sets the flag and issues no API call. -/
def setFocusModeAction (b : Bool) (s : AppState) : AppState × List ApiCall :=
  ({ s with focusMode := b }, [])

/-- `setSavedSoon` of `App.js` lines 52-58: status becomes `saved`, the
previously scheduled revert (if any) is cleared, and a fresh revert timer is
scheduled. -/
def setSavedSoon (s : AppState) : AppState :=
  { s with saveState := SaveState.saved,
           pendingTimer := some s.nextId, nextId := s.nextId + 1 }

/-- Arrival of the callback of timer `id` (`App.js` lines 55-57): when `id` is
still the scheduled timer, status becomes `idle`; a cleared or superseded
timer does nothing. -/
def timerFire (id : Nat) (s : AppState) : AppState :=
  if s.pendingTimer = some id then
    { s with saveState := SaveState.idle, pendingTimer := none }
  else s

/-- Start phase of `load` (`App.js` lines 60-62): set the loading flag, clear
the error, call `listTasks`. -/
def loadStart (s : AppState) : AppState × List ApiCall :=
  ({ s with loading := true, errorMsg := "" }, [ApiCall.listTasks])

/-- Success branch of `load` (`App.js` lines 64-65 and the `finally` at 68-70):
store the fetched list, clear the loading flag. -/
def loadSuccess (data : List Task) (s : AppState) : AppState :=
  { s with tasks := data, loading := false }

/-- Failure branch of `load` (`App.js` lines 66-70): show the reload-prompting
error, clear the loading flag, leave the list unchanged. -/
def loadFailure (s : AppState) : AppState :=
  { s with errorMsg := "Could not load tasks. Please refresh.", loading := false }

/-- `load` for a given network outcome. -/
def loadRun (outcome : Except Unit (List Task)) (s : AppState) : AppState :=
  match outcome with
  | Except.ok data => loadSuccess data (loadStart s).1
  | Except.error _ => loadFailure (loadStart s).1

/-- Model of the JavaScript builtin `String.prototype.trim` used at
`App.js` line 78: drops leading and trailing whitespace. (Defined
structurally over the character list so that it evaluates by kernel
reduction.) -/
def jsTrim (s : String) : String :=
  ⟨((s.data.dropWhile Char.isWhitespace).reverse.dropWhile
      Char.isWhitespace).reverse⟩

/-- Start phase of `onAdd` (`App.js` lines 77-87): reject a trimmed title
shorter than 3 characters with the validation error and no API call;
otherwise clear the error, set status `saving`, and call `createTask` with
the trimmed title. -/
def onAddStart (s : AppState) : AppState × List ApiCall :=
  if (jsTrim s.title).length < 3 then
    ({ s with errorMsg := "Task title must be at least 3 characters." }, [])
  else
    ({ s with errorMsg := "", saveState := SaveState.saving },
     [ApiCall.createTask (jsTrim s.title)])

/-- Success branch of `onAdd` (`App.js` lines 88-91): append `res.task`, clear
the input, run `setSavedSoon`. -/
def onAddSuccess (res : TaskResponse) (s : AppState) : AppState :=
  setSavedSoon { s with tasks := s.tasks ++ [res.task], title := "" }

/-- Failure branch of `onAdd` (`App.js` lines 92-95). -/
def onAddFailure (s : AppState) : AppState :=
  { s with saveState := SaveState.error,
           errorMsg := "Could not add task. Please try again." }

/-- `onAdd` for a given network outcome (only reached past validation). -/
def onAddRun (outcome : Except Unit TaskResponse) (s : AppState) : AppState :=
  match outcome with
  | Except.ok res => onAddSuccess res (onAddStart s).1
  | Except.error _ => onAddFailure (onAddStart s).1

/-- The optimistic flip of `onToggle` (`App.js` line 103): flip `completed` on
every entry whose id matches the toggled task. -/
def toggleFlip (task : Task) (tasks : List Task) : List Task :=
  tasks.map (fun t =>
    if t.id = task.id then { t with completed := !t.completed } else t)

/-- The success reconciliation of `onToggle` (`App.js` line 107): replace every
entry whose id matches by the server-returned task `res.task`. -/
def toggleReconcile (task : Task) (res : TaskResponse) (tasks : List Task) :
    List Task :=
  tasks.map (fun t => if t.id = task.id then res.task else t)

/-- The failure revert of `onToggle` (`App.js` line 113): set `completed` back
to the pre-toggle value `task.completed` on every entry whose id matches. -/
def toggleRevert (task : Task) (tasks : List Task) : List Task :=
  tasks.map (fun t =>
    if t.id = task.id then { t with completed := task.completed } else t)

/-- Start phase of `onToggle` (`App.js` lines 98-106): clear the error, set
status `saving`, optimistically flip, and call `patchTaskCompletion` with the
negated pre-toggle flag. -/
def onToggleStart (task : Task) (s : AppState) : AppState × List ApiCall :=
  ({ s with errorMsg := "", saveState := SaveState.saving,
            tasks := toggleFlip task s.tasks },
   [ApiCall.patchTaskCompletion task.id (!task.completed)])

/-- Success branch of `onToggle` (`App.js` lines 107-108). -/
def onToggleSuccess (task : Task) (res : TaskResponse) (s : AppState) :
    AppState :=
  setSavedSoon { s with tasks := toggleReconcile task res s.tasks }

/-- Failure branch of `onToggle` (`App.js` lines 109-114). -/
def onToggleFailure (task : Task) (s : AppState) : AppState :=
  { s with saveState := SaveState.error,
           errorMsg := "Could not update task. Please try again.",
           tasks := toggleRevert task s.tasks }

/-- `onToggle` for a given network outcome. -/
def onToggleRun (task : Task) (outcome : Except Unit TaskResponse)
    (s : AppState) : AppState :=
  match outcome with
  | Except.ok res => onToggleSuccess task res (onToggleStart task s).1
  | Except.error _ => onToggleFailure task (onToggleStart task s).1

/-- The optimistic removal of `onDelete` (`App.js` line 122):
`p.filter((t) => t.id !== task.id)`. -/
def deleteOptimistic (task : Task) (tasks : List Task) : List Task :=
  tasks.filter (fun t => decide (t.id ≠ task.id))

/-- Start phase of `onDelete` (`App.js` lines 117-122): clear the error, set
status `saving`, optimistically remove, call `deleteTask`. (The snapshot
`prev` is taken by the caller, see `onDeleteRun`.) -/
def onDeleteStart (task : Task) (s : AppState) : AppState × List ApiCall :=
  ({ s with errorMsg := "", saveState := SaveState.saving,
            tasks := deleteOptimistic task s.tasks },
   [ApiCall.deleteTask task.id])

/-- Success branch of `onDelete` (`App.js` lines 125-126): only `setSavedSoon`. -/
def onDeleteSuccess (s : AppState) : AppState := setSavedSoon s

/-- Failure branch of `onDelete` (`App.js` lines 127-131): restore the
snapshot taken before the optimistic removal. -/
def onDeleteFailure (snapshot : List Task) (s : AppState) : AppState :=
  { s with saveState := SaveState.error,
           errorMsg := "Could not delete task. Please try again.",
           tasks := snapshot }

/-- `onDelete` for a given network outcome; `prev = tasks` is captured before
the optimistic removal (`App.js` line 121). -/
def onDeleteRun (task : Task) (outcome : Except Unit Unit) (s : AppState) :
    AppState :=
  match outcome with
  | Except.ok _ => onDeleteSuccess (onDeleteStart task s).1
  | Except.error _ => onDeleteFailure s.tasks (onDeleteStart task s).1

/-- A JSON-like value large enough to describe the response bodies the API
client passes through: a task object, or an object with a single field. -/
inductive BodyVal where
  | taskObj (t : Task)
  | obj1 (key : String) (v : BodyVal)
deriving DecidableEq, Repr

/-- Field access on a `BodyVal` (the `res.task` read of `App.js`). -/
def BodyVal.field (v : BodyVal) (k : String) : Option BodyVal :=
  match v with
  | BodyVal.obj1 key x => if key = k then some x else none
  | _ => none

/-- `createTask` of `api.js` lines 16-19: resolves with `res.data`, the
response body, unchanged. -/
def createTask (resData : BodyVal) : BodyVal := resData

/-- `patchTaskCompletion` of `api.js` lines 21-24: resolves with `res.data`,
the response body, unchanged. -/
def patchTaskCompletion (resData : BodyVal) : BodyVal := resData

/-- Modelled from the spec: the backend is not part of this repository; per
the external-interface table (spec section 6) the response body of
`POST /tasks` and `PATCH /tasks/{id}` is the wrapper object `{task: Task}`,
which is also the shape `App.js` reads with `res.task`. -/
def serverTaskResponseBody (t : Task) : BodyVal :=
  BodyVal.obj1 "task" (BodyVal.taskObj t)

/-- C1: if the toggle action's network call fails, the failure handler leaves
the task list exactly as it was before the toggle began: the optimistic flip
is fully reverted using the pre-call snapshot of the toggled task (under the
data-model invariant that ids are unique). In particular the affected task's
`completed` flag equals its pre-toggle value. -/
theorem c1_toggle_failure_reverts (s : AppState) (task : Task)
    (hmem : task ∈ s.tasks) (hnodup : (s.tasks.map Task.id).Nodup) :
    (onToggleRun task (Except.error ()) s).tasks = s.tasks := by
  show toggleRevert task (toggleFlip task s.tasks) = s.tasks
  unfold toggleRevert toggleFlip
  rw [List.map_map]
  have key : ∀ t ∈ s.tasks,
      ((fun t => if t.id = task.id then { t with completed := task.completed }
                 else t) ∘
       (fun t => if t.id = task.id then { t with completed := !t.completed }
                 else t)) t = t := by
    intro t ht
    by_cases h : t.id = task.id
    · have heq : t = task := List.inj_on_of_nodup_map hnodup ht hmem h
      subst heq
      simp [Function.comp]
    · simp [Function.comp, h]
  have h2 : s.tasks.map
      ((fun t => if t.id = task.id then { t with completed := task.completed }
                 else t) ∘
       (fun t => if t.id = task.id then { t with completed := !t.completed }
                 else t)) = s.tasks.map id :=
    List.map_congr_left (fun a ha => key a ha)
  rw [h2, List.map_id]

/-- Witness for C1 at a concrete state and task. -/
theorem c1_witness :
    (⟨1, "Buy milk", false⟩ : Task) ∈
      ({ initState with
         tasks := [⟨1, "Buy milk", false⟩, ⟨2, "Walk dog", true⟩] } :
       AppState).tasks ∧
    ((({ initState with
         tasks := [⟨1, "Buy milk", false⟩, ⟨2, "Walk dog", true⟩] } :
       AppState).tasks.map Task.id).Nodup) ∧
    (onToggleRun ⟨1, "Buy milk", false⟩ (Except.error ())
        { initState with
          tasks := [⟨1, "Buy milk", false⟩, ⟨2, "Walk dog", true⟩] }).tasks =
      [⟨1, "Buy milk", false⟩, ⟨2, "Walk dog", true⟩] :=
  ⟨by decide, by decide,
   c1_toggle_failure_reverts
     { initState with
       tasks := [⟨1, "Buy milk", false⟩, ⟨2, "Walk dog", true⟩] }
     ⟨1, "Buy milk", false⟩ (by decide) (by decide)⟩

/-- C2: if the delete action's network call fails, the failure handler
restores the local task list to the exact snapshot taken before the
optimistic removal, element for element and in the same order. -/
theorem c2_delete_failure_restores (s : AppState) (task : Task) :
    (onDeleteRun task (Except.error ()) s).tasks = s.tasks := rfl

/-- C8: the load operation sets the loading flag on entry and issues exactly
the `listTasks` call; the loading flag is cleared on exit in both outcomes;
on failure the task list is left unchanged (so it stays empty from the
initial state) and the reload-prompting error message is shown. -/
theorem c8_load_failure_frame (s : AppState) :
    (loadStart s).1.loading = true ∧
    (loadStart s).2 = [ApiCall.listTasks] ∧
    (∀ outcome : Except Unit (List Task), (loadRun outcome s).loading = false) ∧
    (loadRun (Except.error ()) s).tasks = s.tasks ∧
    (loadRun (Except.error ()) s).errorMsg =
      "Could not load tasks. Please refresh." ∧
    (loadRun (Except.error ()) initState).tasks = [] :=
  ⟨rfl, rfl, fun outcome => by cases outcome <;> rfl, rfl, rfl, rfl⟩

/-- C5: the derived completed count is at most the total count, the displayed
percentage string is the rounding of `clamp(completed/total*100, 0, 100)`,
and the percentage is `0` when the list is empty. -/
theorem c5_progress (l : List Task) :
    completedCount l ≤ totalCount l ∧
    (totalCount l = 0 → percent l = 0) ∧
    formatPercent (percent l) =
      toString (round (clamp ((completedCount l : ℚ) / (totalCount l : ℚ) * 100)
        0 100)) ++ "%" := by
  refine ⟨List.length_filter_le _ _, fun h => by simp [percent, h], ?_⟩
  by_cases h : totalCount l = 0
  · have hl : l = [] := List.length_eq_zero.mp h
    subst hl
    simp [percent, formatPercent, completedCount, totalCount, clamp]
  · simp [percent, h, formatPercent]

/-- Witness for C5: empty list has zero total and zero percentage. -/
theorem c5_witness :
    totalCount ([] : List Task) = 0 ∧ percent ([] : List Task) = 0 :=
  ⟨rfl, (c5_progress []).2.1 rfl⟩

/-- C6: an input whose trimmed title is shorter than 3 characters makes the
add action show the validation error and issue no API call (the task list is
also untouched); a trimmed title of length at least 3 makes it call
`createTask` with the trimmed title. -/
theorem c6_add_validation (s : AppState) :
    ((jsTrim s.title).length < 3 →
       (onAddStart s).2 = [] ∧
       (onAddStart s).1.errorMsg = "Task title must be at least 3 characters." ∧
       (onAddStart s).1.tasks = s.tasks) ∧
    (3 ≤ (jsTrim s.title).length →
       (onAddStart s).2 = [ApiCall.createTask (jsTrim s.title)] ∧
       (onAddStart s).1.saveState = SaveState.saving) := by
  constructor
  · intro h
    simp [onAddStart, h]
  · intro h
    have h2 : ¬ (jsTrim s.title).length < 3 := not_lt.mpr h
    simp [onAddStart, h2]

/-- Witness for C6 at a too-short and a long-enough title. -/
theorem c6_witness :
    ((jsTrim ({ initState with title := "ab" } : AppState).title).length < 3 ∧
     (onAddStart { initState with title := "ab" }).2 = []) ∧
    (3 ≤ (jsTrim ({ initState with title := "Walk dog" } : AppState).title).length ∧
     (onAddStart { initState with title := "Walk dog" }).2 =
       [ApiCall.createTask
          (jsTrim ({ initState with title := "Walk dog" } : AppState).title)]) :=
  ⟨⟨by decide,
    ((c6_add_validation { initState with title := "ab" }).1 (by decide)).1⟩,
   ⟨by decide,
    ((c6_add_validation { initState with title := "Walk dog" }).2 (by decide)).1⟩⟩

/-- C7: with focus mode on, the rendered list is exactly the subsequence of
tasks with `completed = false` in their original order (a sublist, containing
only incomplete tasks, and keeping every incomplete task with its
multiplicity); with focus mode off it is the full list; and flipping the
focus-mode switch changes neither the task list nor issues any API call. -/
theorem c7_focus_mode (tasks : List Task) (b : Bool) (s : AppState) :
    (visibleTasks true tasks).Sublist tasks ∧
    (∀ t ∈ visibleTasks true tasks, t.completed = false) ∧
    (∀ t : Task, t.completed = false →
       (visibleTasks true tasks).count t = tasks.count t) ∧
    visibleTasks false tasks = tasks ∧
    (setFocusModeAction b s).1.tasks = s.tasks ∧
    (setFocusModeAction b s).2 = [] := by
  refine ⟨?_, ?_, ?_, rfl, rfl, rfl⟩
  · exact List.filter_sublist tasks
  · intro t ht
    have h2 : t ∈ tasks.filter (fun x => !x.completed) := ht
    simpa using (List.mem_filter.mp h2).2
  · intro t ht
    have hp : (!t.completed) = true := by simp [ht]
    simpa [visibleTasks] using
      List.count_filter (p := fun x : Task => !x.completed) (a := t)
        (l := tasks) hp

/-- Witness for C7 at a concrete two-task list. -/
theorem c7_witness :
    ((⟨1, "Buy milk", false⟩ : Task).completed = false ∧
     (visibleTasks true [⟨1, "Buy milk", false⟩, ⟨2, "Walk dog", true⟩]).count
         ⟨1, "Buy milk", false⟩ =
       ([⟨1, "Buy milk", false⟩, ⟨2, "Walk dog", true⟩] : List Task).count
         ⟨1, "Buy milk", false⟩) ∧
    (⟨1, "Buy milk", false⟩ : Task) ∈
      visibleTasks true [⟨1, "Buy milk", false⟩, ⟨2, "Walk dog", true⟩] ∧
    visibleTasks false [⟨1, "Buy milk", false⟩, ⟨2, "Walk dog", true⟩] =
      [⟨1, "Buy milk", false⟩, ⟨2, "Walk dog", true⟩] :=
  ⟨⟨rfl,
    (c7_focus_mode [⟨1, "Buy milk", false⟩, ⟨2, "Walk dog", true⟩] true
      initState).2.2.1 ⟨1, "Buy milk", false⟩ rfl⟩,
   by decide,
   (c7_focus_mode [⟨1, "Buy milk", false⟩, ⟨2, "Walk dog", true⟩] true
     initState).2.2.2.1⟩

/-- C9: each branch of the toggle action (optimistic flip, success
reconciliation, failure revert) preserves the length of the task list and the
position of every entry, and leaves every entry whose id differs from the
toggled task's id exactly unchanged. -/
theorem c9_toggle_branches_frame (task : Task) (res : TaskResponse)
    (l : List Task) :
    ((toggleFlip task l).length = l.length ∧
     (toggleReconcile task res l).length = l.length ∧
     (toggleRevert task l).length = l.length) ∧
    (∀ i : Nat, ∀ t : Task, l[i]? = some t → t.id ≠ task.id →
       (toggleFlip task l)[i]? = some t ∧
       (toggleReconcile task res l)[i]? = some t ∧
       (toggleRevert task l)[i]? = some t) := by
  constructor
  · exact ⟨by simp [toggleFlip], by simp [toggleReconcile],
           by simp [toggleRevert]⟩
  · intro i t hget hid
    refine ⟨?_, ?_, ?_⟩ <;>
      simp [toggleFlip, toggleReconcile, toggleRevert, List.getElem?_map,
        hget, hid]

/-- Witness for C9 at a concrete list whose single entry has a different id
from the toggled task. -/
theorem c9_witness :
    (toggleFlip ⟨1, "Buy milk", false⟩ [⟨2, "Walk dog", true⟩]).length =
      ([⟨2, "Walk dog", true⟩] : List Task).length ∧
    ([⟨2, "Walk dog", true⟩] : List Task)[0]? = some ⟨2, "Walk dog", true⟩ ∧
    (⟨2, "Walk dog", true⟩ : Task).id ≠ (⟨1, "Buy milk", false⟩ : Task).id ∧
    (toggleFlip ⟨1, "Buy milk", false⟩ [⟨2, "Walk dog", true⟩])[0]? =
      some ⟨2, "Walk dog", true⟩ ∧
    (toggleReconcile ⟨1, "Buy milk", false⟩ ⟨⟨1, "Buy milk", true⟩⟩
        [⟨2, "Walk dog", true⟩])[0]? = some ⟨2, "Walk dog", true⟩ ∧
    (toggleRevert ⟨1, "Buy milk", false⟩ [⟨2, "Walk dog", true⟩])[0]? =
      some ⟨2, "Walk dog", true⟩ := by
  have h := c9_toggle_branches_frame ⟨1, "Buy milk", false⟩
    ⟨⟨1, "Buy milk", true⟩⟩ [⟨2, "Walk dog", true⟩]
  have h2 := h.2 0 ⟨2, "Walk dog", true⟩ (by decide) (by decide)
  exact ⟨h.1.1, by decide, by decide, h2.1, h2.2.1, h2.2.2⟩

/-- C10: the delete action's optimistic removal filters by id: the result is
a sublist of the original (keeping the remaining entries in their original
relative order), contains no entry with the target id, and keeps every entry
with a different id with its multiplicity. -/
theorem c10_delete_optimistic_filter (task : Task) (l : List Task) :
    (deleteOptimistic task l).Sublist l ∧
    (∀ t ∈ deleteOptimistic task l, t.id ≠ task.id) ∧
    (∀ t : Task, t.id ≠ task.id →
       (deleteOptimistic task l).count t = l.count t) := by
  refine ⟨List.filter_sublist l, ?_, ?_⟩
  · intro t ht
    have h2 : t ∈ l.filter (fun x => decide (x.id ≠ task.id)) := ht
    simpa using (List.mem_filter.mp h2).2
  · intro t ht
    have hp : decide (t.id ≠ task.id) = true := decide_eq_true ht
    simpa [deleteOptimistic] using
      List.count_filter (p := fun x : Task => decide (x.id ≠ task.id))
        (a := t) (l := l) hp

/-- Witness for C10 at a concrete two-task list. -/
theorem c10_witness :
    ((⟨2, "Walk dog", true⟩ : Task).id ≠ (⟨1, "Buy milk", false⟩ : Task).id ∧
     (deleteOptimistic ⟨1, "Buy milk", false⟩
        [⟨1, "Buy milk", false⟩, ⟨2, "Walk dog", true⟩]).count
         ⟨2, "Walk dog", true⟩ =
       ([⟨1, "Buy milk", false⟩, ⟨2, "Walk dog", true⟩] : List Task).count
         ⟨2, "Walk dog", true⟩) ∧
    (deleteOptimistic ⟨1, "Buy milk", false⟩
       [⟨1, "Buy milk", false⟩, ⟨2, "Walk dog", true⟩]).Sublist
      [⟨1, "Buy milk", false⟩, ⟨2, "Walk dog", true⟩] := by
  have h := c10_delete_optimistic_filter ⟨1, "Buy milk", false⟩
    [⟨1, "Buy milk", false⟩, ⟨2, "Walk dog", true⟩]
  exact ⟨⟨by decide, h.2.2 ⟨2, "Walk dog", true⟩ (by decide)⟩, h.1⟩

/-- C3 counterexample: `createTask` and `patchTaskCompletion` resolve with
`res.data`, which for the backend response `{task: Task}` is the wrapper
object, not the Task: at a concrete task the resolved value differs from the
task object. -/
theorem c3_counterexample :
    createTask (serverTaskResponseBody ⟨1, "Buy milk", false⟩) ≠
      BodyVal.taskObj ⟨1, "Buy milk", false⟩ ∧
    patchTaskCompletion (serverTaskResponseBody ⟨1, "Buy milk", true⟩) ≠
      BodyVal.taskObj ⟨1, "Buy milk", true⟩ :=
  ⟨by simp [createTask, serverTaskResponseBody],
   by simp [patchTaskCompletion, serverTaskResponseBody]⟩

/-- C3 (amended): `createTask` and `patchTaskCompletion` resolve with the raw
response body, the wrapper object `{task: Task}` whose `task` field holds the
created/updated Task (with its server-assigned id); the callers unwrap it —
`onAdd` appends `res.task` to the list. -/
theorem c3_amended_client_returns_wrapper (t : Task) (res : TaskResponse)
    (s : AppState) :
    createTask (serverTaskResponseBody t) =
      BodyVal.obj1 "task" (BodyVal.taskObj t) ∧
    (createTask (serverTaskResponseBody t)).field "task" =
      some (BodyVal.taskObj t) ∧
    patchTaskCompletion (serverTaskResponseBody t) =
      BodyVal.obj1 "task" (BodyVal.taskObj t) ∧
    (patchTaskCompletion (serverTaskResponseBody t)).field "task" =
      some (BodyVal.taskObj t) ∧
    (onAddSuccess res s).tasks = s.tasks ++ [res.task] := by
  refine ⟨rfl, ?_, rfl, ?_, rfl⟩ <;>
    simp [BodyVal.field, createTask, patchTaskCompletion,
      serverTaskResponseBody]

/-- The state after: first toggle succeeds (status `saved`, revert timer 0
scheduled), then a second toggle starts during the dwell. -/
def c4StaleTimerState : AppState :=
  (onToggleStart ⟨1, "Buy milk", true⟩
    (onToggleSuccess ⟨1, "Buy milk", false⟩ ⟨⟨1, "Buy milk", true⟩⟩
      (onToggleStart ⟨1, "Buy milk", false⟩ initState).1)).1

/-- The state after the second toggle then fails. -/
def c4ErrorState : AppState :=
  onToggleFailure ⟨1, "Buy milk", true⟩ c4StaleTimerState

/-- C4 counterexample: a second toggle arriving during the dwell does NOT
cancel the pending revert (timer 0 is still scheduled while status is
`saving`), and after this toggle fails (status `error`) the stale timer fires
and moves the status to `idle` although no new action occurred — refuting
both "any new action arriving during the dwell cancels the pending revert"
and "on failure it moves to error and remains error until the next action". -/
theorem c4_counterexample :
    c4StaleTimerState.saveState = SaveState.saving ∧
    c4StaleTimerState.pendingTimer = some 0 ∧
    c4ErrorState.saveState = SaveState.error ∧
    c4ErrorState.pendingTimer = some 0 ∧
    (timerFire 0 c4ErrorState).saveState = SaveState.idle :=
  ⟨rfl, rfl, rfl, rfl, rfl⟩

/-- C4 (amended): the save-status indicator as implemented: toggle/delete
starts, and an add start that passes validation, set status `saving`
immediately but leave any pending revert timer scheduled (arrival does not
cancel it); on success `setSavedSoon` sets `saved`, cancels the previously
scheduled revert (an older timer firing afterwards is a no-op) and schedules
a fresh revert whose firing sets `idle`; on failure the status becomes
`error` while a stale pending revert survives and, when it fires, sets the
status to `idle`; a timer that is not the scheduled one does nothing. -/
theorem c4_amended_save_status (s : AppState) (task : Task)
    (res : TaskResponse) (o i : Nat) :
    ((onToggleStart task s).1.saveState = SaveState.saving ∧
     (onDeleteStart task s).1.saveState = SaveState.saving ∧
     (3 ≤ (jsTrim s.title).length →
        (onAddStart s).1.saveState = SaveState.saving)) ∧
    ((onToggleStart task s).1.pendingTimer = s.pendingTimer ∧
     (onDeleteStart task s).1.pendingTimer = s.pendingTimer ∧
     (onAddStart s).1.pendingTimer = s.pendingTimer) ∧
    ((setSavedSoon s).saveState = SaveState.saved ∧
     (setSavedSoon s).pendingTimer = some s.nextId ∧
     (onToggleSuccess task res s).saveState = SaveState.saved ∧
     (o < s.nextId → timerFire o (setSavedSoon s) = setSavedSoon s) ∧
     (timerFire s.nextId (setSavedSoon s)).saveState = SaveState.idle) ∧
    ((onToggleFailure task s).saveState = SaveState.error ∧
     (onAddFailure s).saveState = SaveState.error ∧
     (onDeleteFailure s.tasks s).saveState = SaveState.error ∧
     (onToggleFailure task s).pendingTimer = s.pendingTimer) ∧
    ((s.pendingTimer = some o →
        (timerFire o s).saveState = SaveState.idle ∧
        (timerFire o s).pendingTimer = none) ∧
     (s.pendingTimer ≠ some i → timerFire i s = s)) := by
  refine ⟨⟨rfl, rfl, fun h => ?_⟩, ⟨rfl, rfl, ?_⟩,
          ⟨rfl, rfl, rfl, fun h => ?_, ?_⟩, ⟨rfl, rfl, rfl, rfl⟩,
          ⟨fun h => ?_, fun h => ?_⟩⟩
  · simp [onAddStart, not_lt.mpr h]
  · by_cases hh : (jsTrim s.title).length < 3 <;> simp [onAddStart, hh]
  · have hne : s.nextId ≠ o := Nat.ne_of_gt h
    simp [timerFire, setSavedSoon, hne]
  · simp [timerFire, setSavedSoon]
  · simp [timerFire, h]
  · simp [timerFire, h]

/-- A concrete state with a stale revert timer 0 scheduled and a valid title,
used to witness the amended C4. -/
def c4WitnessState : AppState :=
  { initState with pendingTimer := some 0, nextId := 1, title := "Walk dog" }

/-- Witness for the amended C4 at `c4WitnessState` with old timer 0 and
unscheduled timer 7. -/
theorem c4_amended_witness :
    (3 ≤ (jsTrim c4WitnessState.title).length ∧
     0 < c4WitnessState.nextId ∧
     c4WitnessState.pendingTimer = some 0 ∧
     c4WitnessState.pendingTimer ≠ some 7) ∧
    ((onAddStart c4WitnessState).1.saveState = SaveState.saving ∧
     timerFire 0 (setSavedSoon c4WitnessState) = setSavedSoon c4WitnessState ∧
     (timerFire 0 c4WitnessState).saveState = SaveState.idle ∧
     timerFire 7 c4WitnessState = c4WitnessState) := by
  have h := c4_amended_save_status c4WitnessState ⟨1, "Buy milk", false⟩
    ⟨⟨1, "Buy milk", true⟩⟩ 0 7
  exact ⟨⟨by decide, by decide, rfl, by decide⟩,
         ⟨h.1.2.2 (by decide), h.2.2.1.2.2.2.1 (by decide),
          (h.2.2.2.2.1 rfl).1, h.2.2.2.2.2 (by decide)⟩⟩

end TaskBoard
